import Mathlib

/-!
Shallow embedding of the `eye` repository (Norwegian company analyzer):
`src/company_analyzer.py` and `src/domain_finder.py`, together with
theorems settling the specification claims about them.

Python dictionaries are modelled as association lists of `String × Value`,
where `Value` is the dynamic value type actually occurring in the data
(`None`, `int`, `str`, nested `dict`).  Python code that can raise
(`TypeError`/`AttributeError` on dynamically ill-typed operands) is
embedded as `Except String _`, with the error string naming the Python
exception class.
-/

namespace Eye

/-- Dynamic Python value, as used by the company records. -/
inductive Value where
  | null
  | int (n : Int)
  | str (s : String)
  | dict (entries : List (String × Value))

/-- A Python dict with string keys, as an association list. -/
abbrev Dict := List (String × Value)

/-- `d.get(k)` / `d[k]` presence: first binding of `k`. -/
def dictGet (d : Dict) (k : String) : Option Value :=
  List.lookup k d

/-- `d[k] = v`: overwrite the first binding in place, else append. -/
def dictSet : Dict → String → Value → Dict
  | [], k, v => [(k, v)]
  | (k', v') :: rest, k, v =>
      if k' = k then (k', v) :: rest else (k', v') :: dictSet rest k v

/-! ## `CompanyAnalyzer._estimate_revenue` (company_analyzer.py lines 48-81) -/

/-- 2M NOK per employee for small companies. -/
def tier1Rate : Int := 2000000

/-- 1.5M NOK per employee for medium companies. -/
def tier2Rate : Int := 1500000

/-- 1.2M NOK per employee for larger companies. -/
def tier3Rate : Int := 1200000

/-- 1M NOK per employee for large companies. -/
def tier4Rate : Int := 1000000

/-- The arithmetic core of `_estimate_revenue`, on an `int` employee count. -/
def estimate_revenue_int (employees : Int) : Int :=
  if employees = 0 then 1000000
  else if employees ≤ 10 then employees * tier1Rate
  else if employees ≤ 50 then employees * tier2Rate
  else if employees ≤ 250 then employees * tier3Rate
  else employees * tier4Rate

/-- `CompanyAnalyzer._estimate_revenue(company)`.
`company.get('antallAnsatte')` yields `None` both for a missing key and an
explicit `None` value; `if employees is None: return None`.  A non-`None`,
non-`int` value passes `employees == 0` (false) and then raises `TypeError`
at `employees <= 10`. -/
def estimate_revenue (company : Dict) : Except String (Option Int) :=
  match (dictGet company "antallAnsatte").getD .null with
  | .null => .ok none
  | .int employees => .ok (some (estimate_revenue_int employees))
  | _ => .error "TypeError"

/-! ## `CompanyAnalyzer._classify_company_size` (lines 83-104) -/

/-- The comparison chain of `_classify_company_size`, on an `int` count. -/
def classify_size_int (employees : Int) : String :=
  if employees = 0 then "micro"
  else if employees ≤ 10 then "small"
  else if employees ≤ 50 then "medium"
  else if employees ≤ 250 then "large"
  else "very_large"

/-- `CompanyAnalyzer._classify_company_size(company)`.
`company.get('antallAnsatte', 0)` defaults to `0` only when the key is
absent; an explicit `None` (or other non-`int`) value survives, passes
`employees == 0` (false) and raises `TypeError` at `employees <= 10`. -/
def classify_company_size (company : Dict) : Except String String :=
  match (dictGet company "antallAnsatte").getD (.int 0) with
  | .int employees => .ok (classify_size_int employees)
  | _ => .error "TypeError"

/-! ## `CompanyAnalyzer._get_industry_category` (lines 106-215) -/

/-- The `industry_mapping` dict literal of `_get_industry_category`. -/
def industry_mapping : List (String × String) :=
  [("01", "agriculture"), ("02", "agriculture"), ("03", "agriculture"),
   ("05", "mining"), ("06", "mining"), ("07", "mining"), ("08", "mining"),
   ("09", "mining"),
   ("10", "manufacturing"), ("11", "manufacturing"), ("12", "manufacturing"),
   ("13", "manufacturing"), ("14", "manufacturing"), ("15", "manufacturing"),
   ("16", "manufacturing"), ("17", "manufacturing"), ("18", "manufacturing"),
   ("19", "manufacturing"), ("20", "manufacturing"), ("21", "manufacturing"),
   ("22", "manufacturing"), ("23", "manufacturing"), ("24", "manufacturing"),
   ("25", "manufacturing"), ("26", "manufacturing"), ("27", "manufacturing"),
   ("28", "manufacturing"), ("29", "manufacturing"), ("30", "manufacturing"),
   ("31", "manufacturing"), ("32", "manufacturing"), ("33", "manufacturing"),
   ("35", "utilities"), ("36", "utilities"), ("37", "utilities"),
   ("38", "utilities"), ("39", "utilities"),
   ("41", "construction"), ("42", "construction"), ("43", "construction"),
   ("45", "trade"), ("46", "trade"), ("47", "trade"),
   ("49", "transport"), ("50", "transport"), ("51", "transport"),
   ("52", "transport"), ("53", "transport"),
   ("55", "accommodation"), ("56", "accommodation"),
   ("58", "information"), ("59", "information"), ("60", "information"),
   ("61", "information"), ("62", "information"), ("63", "information"),
   ("64", "finance"), ("65", "finance"), ("66", "finance"),
   ("68", "real_estate"),
   ("69", "professional"), ("70", "professional"), ("71", "professional"),
   ("72", "professional"), ("73", "professional"), ("74", "professional"),
   ("75", "professional"),
   ("77", "services"), ("78", "services"), ("79", "services"),
   ("80", "services"), ("81", "services"), ("82", "services"),
   ("84", "public"), ("85", "education"),
   ("86", "health"), ("87", "health"), ("88", "health"),
   ("90", "arts"), ("91", "arts"), ("92", "arts"), ("93", "arts"),
   ("94", "other"), ("95", "other"), ("96", "other"), ("97", "other"),
   ("98", "other"), ("99", "other")]

/-- Python string slice `s[:2]` (code points). -/
def strTake2 (s : String) : String :=
  (s.toList.take 2).asString

/-- The string path of `_get_industry_category` once `nace_code : str` is
in hand: `if not nace_code: return 'unknown'`, then
`code_num = nace_code[:2] if len(nace_code) >= 2 else ''` and
`industry_mapping.get(code_num, 'other')`. -/
def industry_from_code (naceCode : String) : String :=
  if naceCode = "" then "unknown"
  else
    let codeNum := if 2 ≤ naceCode.length then strTake2 naceCode else ""
    (industry_mapping.lookup codeNum).getD "other"

/-- `CompanyAnalyzer._get_industry_category(company)`.
`company.get('naeringskode1', {}).get('kode', '')`: the default `{}` is used
only when the key is absent; a non-dict value (including `None`) has no
`.get` and raises `AttributeError`.  A non-string `kode` follows Python
truthiness and `len`/slicing semantics: `None`, `0` and `{}` are falsy
(`'unknown'`), `len` of a nonzero `int` raises `TypeError`, a dict of length
one yields `code_num = ''` (`'other'`), and slicing a longer dict raises
`TypeError`. -/
def get_industry_category (company : Dict) : Except String String :=
  match (dictGet company "naeringskode1").getD (.dict []) with
  | .dict d =>
      match (dictGet d "kode").getD (.str "") with
      | .str s => .ok (industry_from_code s)
      | .null => .ok "unknown"
      | .int n => if n = 0 then .ok "unknown" else .error "TypeError"
      | .dict d2 =>
          if d2.isEmpty then .ok "unknown"
          else if d2.length < 2 then .ok "other"
          else .error "TypeError"
  | _ => .error "AttributeError"

/-! ## `CompanyAnalyzer.enrich_company_data` (lines 23-46) -/

/-- `enriched['estimated_revenue'] = revenue_estimate`: Python stores the
`Optional[int]` as an `int` or `None`. -/
def optIntToValue : Option Int → Value
  | none => .null
  | some n => .int n

/-- `CompanyAnalyzer.enrich_company_data(company)`: copy the dict, then set
the three derived keys, each computed from the original `company`. -/
def enrich_company_data (company : Dict) : Except String Dict := do
  let enriched := company
  let revenueEstimate ← estimate_revenue company
  let enriched := dictSet enriched "estimated_revenue" (optIntToValue revenueEstimate)
  let sizeCategory ← classify_company_size company
  let enriched := dictSet enriched "size_category" (.str sizeCategory)
  let industryCategory ← get_industry_category company
  let enriched := dictSet enriched "industry_category" (.str industryCategory)
  return enriched

/-! ## `CompanyAnalyzer.filter_large_companies` (lines 217-235) -/

/-- `CompanyAnalyzer.filter_large_companies(companies, min_employees)`.
The loop appends `company` when
`employees is not None and employees >= min_employees`; `is not None` is
false both for a missing key and an explicit `None` (short-circuiting the
comparison), while a non-`None` non-`int` value raises `TypeError` at the
`>=`. -/
def filter_large_companies : List Dict → Int → Except String (List Dict)
  | [], _ => .ok []
  | company :: rest, minEmployees =>
      match (dictGet company "antallAnsatte").getD .null with
      | .null => filter_large_companies rest minEmployees
      | .int employees =>
          if minEmployees ≤ employees then do
            let tail ← filter_large_companies rest minEmployees
            return company :: tail
          else filter_large_companies rest minEmployees
      | _ => .error "TypeError"

/-! ## `CompanyAnalyzer.sort_by_revenue_estimate` (lines 237-251) -/

/-- The `get_revenue` key function:
`company.get('estimated_revenue')`, then `revenue if revenue is not None
else 0`.  The claims only concern classified records, whose
`estimated_revenue` is an `int` or `None`/absent; any other stored value is
also keyed here (Python would compare it during the sort). -/
def get_revenue (company : Dict) : Int :=
  match dictGet company "estimated_revenue" with
  | some (.int revenue) => revenue
  | _ => 0

/-- `sorted(companies, key=get_revenue, reverse=True)`: a stable sort,
descending by key.  `List.mergeSort` is stable and sorts ascending with
respect to the given boolean relation, so descending-by-key is
`le a b := get_revenue b ≤ get_revenue a`. -/
def sort_by_revenue_estimate (companies : List Dict) : List Dict :=
  companies.mergeSort (fun a b => get_revenue b ≤ get_revenue a)

/-! ## `DomainFinder._guess_domains_from_name` (domain_finder.py lines 57-89)

The regex operations are embedded at ASCII code-point level, which is
exact for the ASCII inputs the claims are about: `str.lower` maps `A-Z`
to `a-z`, `re.sub(r'\s+', '')` followed by `re.sub(r'[^a-z0-9]', '')`
keeps exactly the characters in `[a-z0-9]`.  Python's `set` of candidate
strings is embedded as the list of elements added to it: the claims about
candidate generation concern only membership and emptiness, on which the
two agree (duplicates collapse in the set without changing membership). -/

/-- Character class `[a-z]`. -/
def isAsciiLower (c : Char) : Bool := 'a' ≤ c && c ≤ 'z'

/-- Character class `[0-9]`. -/
def isAsciiDigit (c : Char) : Bool := '0' ≤ c && c ≤ '9'

/-- Character class `[a-zA-Z]`. -/
def isAsciiLetter (c : Char) : Bool :=
  ('a' ≤ c && c ≤ 'z') || ('A' ≤ c && c ≤ 'Z')

/-- Regex `\w` (ASCII part): letters, digits, underscore. -/
def isWordChar (c : Char) : Bool :=
  isAsciiLetter c || isAsciiDigit c || c = '_'

/-- `re.sub(r'\s+', '', name.lower())` then `re.sub(r'[^a-z0-9]', '', _)`:
keep exactly the `[a-z0-9]` characters of the lowered name. -/
def clean_company_name (companyName : String) : String :=
  ((companyName.toList.map Char.toLower).filter
    (fun c => isAsciiLower c || isAsciiDigit c)).asString

/-- `suffixes_to_remove` (line 77). -/
def suffixes_to_remove : List String :=
  ["as", "asa", "ba", "da", "iks", "ks", "nuf", "sa", "sf"]

/-- The suffix-removal loop (lines 78-81): first suffix in list order that
`clean_name.endswith`, removed once (`clean_name[:-len(suffix)]`), then
`break`. -/
def remove_company_suffix (cleanName : String) : String :=
  match suffixes_to_remove.find? (fun suffix =>
      List.isSuffixOf suffix.toList cleanName.toList) with
  | some suffix => (cleanName.toList.take (cleanName.length - suffix.length)).asString
  | none => cleanName

/-- `tlds` (line 85). -/
def tlds : List String := [".no", ".com", ".org", ".net"]

/-- `DomainFinder._guess_domains_from_name(company_name)`: empty name gives
the empty set; otherwise clean, strip one legal-form suffix, and if the
remaining slug has length ≥ 3 emit it under each TLD. -/
def guess_domains_from_name (companyName : String) : List String :=
  if companyName = "" then []
  else
    let cleanName := remove_company_suffix (clean_company_name companyName)
    if 3 ≤ cleanName.length then
      tlds.map (fun tld => cleanName ++ tld)
    else []

/-! ## `DomainFinder._search_common_patterns` (lines 109-146) -/

/-- Maximal runs of `\w` characters of a character list (the segments the
regex engine considers between `\b` boundaries). -/
def word_runs (l : List Char) : List (List Char) :=
  let folded := l.foldr
    (fun c (acc : List (List Char) × List Char) =>
      if isWordChar c then (acc.1, c :: acc.2)
      else (if acc.2.isEmpty then acc.1 else acc.2 :: acc.1, []))
    ([], [])
  if folded.2.isEmpty then folded.1 else folded.2 :: folded.1

/-- `re.findall(r'\b[a-zA-Z]+\b', company_name.lower())`: a maximal
word-character run matches exactly when it consists of letters only (a
letter run adjacent to a digit or underscore fails the `\b` test). -/
def find_word_tokens (companyName : String) : List String :=
  ((word_runs (companyName.toList.map Char.toLower)).filter
    (fun w => w.all isAsciiLetter)).map List.asString

/-- `DomainFinder._search_common_patterns(company_name)` (lines 109-146):
single-word domains for the first token of length ≥ 3, concatenated
two-word domains when the concatenation has length ≥ 4, dashed two-word
domains unconditionally. -/
def search_common_patterns (companyName : String) : List String :=
  if companyName = "" then []
  else
    let words := find_word_tokens companyName
    let singles : List String :=
      match words with
      | mainWord :: _ =>
          if 3 ≤ mainWord.length then [mainWord ++ ".no", mainWord ++ ".com"] else []
      | [] => []
    let pairs : List String :=
      match words with
      | word1 :: word2 :: _ =>
          let combined := word1 ++ word2
          let dashed := word1 ++ "-" ++ word2
          (if 4 ≤ combined.length then
            [combined ++ ".no", combined ++ ".com"]
          else []) ++ [dashed ++ ".no", dashed ++ ".com"]
      | _ => []
    singles ++ pairs

/-- `DomainFinder._search_whois_by_org_number(org_number)` (lines 91-107):
a documented placeholder that always returns the empty set. -/
def search_whois_by_org_number (_orgNumber : String) : List String := []

/-- The candidate union taken by `find_domains_for_company` (lines 44-46):
name-to-slug guesses, the (empty) whois strategy, and the word-pattern
strategy. -/
def generate_candidates (companyName : String) : List String :=
  guess_domains_from_name companyName ++ search_whois_by_org_number "" ++
    search_common_patterns companyName

/-! ## `DomainFinder._verify_domain` (lines 148-177) -/

/-- The exceptions caught by the outer `except` clause: `socket.gaierror`
and `socket.timeout` are what `socket.gethostbyname` raises on failure
(`requests.RequestException` is also caught but cannot come from the
resolution call, and the probe calls below catch everything). -/
inductive ResolveError where
  | gaierror
  | timeout

/-- The network primitives `_verify_domain` consults: DNS resolution for a
bare host (an address on success), and whether a `HEAD` request to a URL
returns without raising. -/
structure Network where
  resolve : String → Except ResolveError String
  headHttp : String → Bool
  headHttps : String → Bool

/-- `DomainFinder._verify_domain(domain)`: resolve the bare host; on
failure return `False`.  On success try `HEAD http://domain`
(`return True` if it does not raise), else `HEAD https://domain`
(`return True` likewise), else fall through to the final `return True`
("if HTTP fails but DNS works, still consider it valid"). -/
def verify_domain (net : Network) (domain : String) : Bool :=
  match net.resolve domain with
  | .ok _ =>
      if net.headHttp ("http://" ++ domain) then true
      else if net.headHttps ("https://" ++ domain) then true
      else true
  | .error _ => false

/-! ## Derived notions used by the theorems -/

/-- Rank of a size category in the ordered enum
`micro < small < medium < large < very_large`. -/
def size_rank : String → ℕ
  | "micro" => 0
  | "small" => 1
  | "medium" => 2
  | "large" => 3
  | _ => 4

/-- The employee-count tier of the revenue heuristic (the bucket whose rate
applies). -/
def revenue_tier (e : ℕ) : ℕ :=
  if e = 0 then 0 else if e ≤ 10 then 1 else if e ≤ 50 then 2
  else if e ≤ 250 then 3 else 4

lemma classify_size_int_natCast (e : ℕ) :
    classify_size_int (e : Int) =
      if e = 0 then "micro" else if e ≤ 10 then "small" else if e ≤ 50 then "medium"
      else if e ≤ 250 then "large" else "very_large" := by
  simp only [classify_size_int]
  norm_cast

lemma estimate_revenue_int_natCast (e : ℕ) :
    estimate_revenue_int (e : Int) =
      if e = 0 then 1000000
      else if e ≤ 10 then (e : Int) * tier1Rate
      else if e ≤ 50 then (e : Int) * tier2Rate
      else if e ≤ 250 then (e : Int) * tier3Rate
      else (e : Int) * tier4Rate := by
  simp only [estimate_revenue_int]
  norm_cast

/-! ## Claim theorems: Entity Classifier -/

/-- C4: every non-negative employee count lands in exactly one of the five
ordered buckets, with inclusive upper boundaries 0/10/50/250 (so
10 → small, 11 → medium, 250 → large, 251 → very_large), the bucket is
monotonically non-decreasing in the count, and the classifier returns
exactly this bucket for a record carrying that count. -/
theorem size_classification_buckets (e e' : ℕ) (h : e ≤ e') :
    classify_size_int (e : Int) ∈ ["micro", "small", "medium", "large", "very_large"] ∧
    (classify_size_int (e : Int) =
      if e = 0 then "micro" else if e ≤ 10 then "small" else if e ≤ 50 then "medium"
      else if e ≤ 250 then "large" else "very_large") ∧
    (classify_size_int (10 : Int) = "small" ∧ classify_size_int (11 : Int) = "medium" ∧
      classify_size_int (250 : Int) = "large" ∧ classify_size_int (251 : Int) = "very_large") ∧
    size_rank (classify_size_int (e : Int)) ≤ size_rank (classify_size_int (e' : Int)) ∧
    classify_company_size [("antallAnsatte", Value.int (e : Int))] =
      .ok (classify_size_int (e : Int)) := by
  refine ⟨?_, classify_size_int_natCast e, by decide, ?_, rfl⟩
  · rw [classify_size_int_natCast]
    split_ifs <;> simp
  · rw [classify_size_int_natCast, classify_size_int_natCast]
    split_ifs <;> first | decide | omega

/-- C4 witness: boundary instance 10 ≤ 11, small before medium. -/
theorem size_classification_buckets_witness :
    size_rank (classify_size_int ((10 : ℕ) : Int)) ≤
      size_rank (classify_size_int ((11 : ℕ) : Int)) :=
  (size_classification_buckets 10 11 (by decide)).2.2.2.1

/-- C3 (code bug): on a record whose employee count is an explicit `None`,
`_estimate_revenue` does return an absent estimate, but
`_classify_company_size` raises `TypeError` (`None` survives the
`.get('antallAnsatte', 0)` default and `None <= 10` is not supported), so
enrichment raises instead of defaulting the category to `micro`.  A record
with the key missing does default to `micro` as the claim states. -/
theorem classifier_raises_on_null_employees :
    estimate_revenue [("antallAnsatte", Value.null)] = .ok none ∧
    classify_company_size [("antallAnsatte", Value.null)] = .error "TypeError" ∧
    enrich_company_data [("antallAnsatte", Value.null)] = .error "TypeError" ∧
    classify_company_size [] = .ok "micro" :=
  ⟨rfl, rfl, rfl, rfl⟩

/-- C7: the revenue estimate is the piecewise heuristic — fixed floor at
zero employees, per-head tier rate otherwise — the four tier rates strictly
decrease, the estimate is weakly increasing within each tier, and an
absent employee count yields an absent estimate. -/
theorem revenue_estimate_heuristic (e e' : ℕ) (h : e ≤ e') :
    estimate_revenue [("antallAnsatte", Value.null)] = .ok none ∧
    estimate_revenue [] = .ok none ∧
    estimate_revenue_int 0 = 1000000 ∧
    (1 ≤ e → e ≤ 10 → estimate_revenue_int (e : Int) = (e : Int) * tier1Rate) ∧
    (11 ≤ e → e ≤ 50 → estimate_revenue_int (e : Int) = (e : Int) * tier2Rate) ∧
    (51 ≤ e → e ≤ 250 → estimate_revenue_int (e : Int) = (e : Int) * tier3Rate) ∧
    (251 ≤ e → estimate_revenue_int (e : Int) = (e : Int) * tier4Rate) ∧
    (tier4Rate < tier3Rate ∧ tier3Rate < tier2Rate ∧ tier2Rate < tier1Rate) ∧
    (revenue_tier e = revenue_tier e' →
      estimate_revenue_int (e : Int) ≤ estimate_revenue_int (e' : Int)) := by
  refine ⟨rfl, rfl, rfl, ?_, ?_, ?_, ?_, by decide, ?_⟩
  · intro h1 h2
    rw [estimate_revenue_int_natCast, if_neg (by omega), if_pos h2]
  · intro h1 h2
    rw [estimate_revenue_int_natCast, if_neg (by omega), if_neg (by omega), if_pos h2]
  · intro h1 h2
    rw [estimate_revenue_int_natCast, if_neg (by omega), if_neg (by omega),
      if_neg (by omega), if_pos h2]
  · intro h1
    rw [estimate_revenue_int_natCast, if_neg (by omega), if_neg (by omega),
      if_neg (by omega), if_neg (by omega)]
  · intro ht
    rw [estimate_revenue_int_natCast, estimate_revenue_int_natCast]
    simp only [revenue_tier] at ht
    simp only [tier1Rate, tier2Rate, tier3Rate, tier4Rate]
    split_ifs at ht ⊢ <;> omega

/-- C7 witness: tier-1 instance at 5 employees and a rate-gap instance. -/
theorem revenue_estimate_heuristic_witness :
    estimate_revenue_int ((5 : ℕ) : Int) = ((5 : ℕ) : Int) * tier1Rate ∧
    tier3Rate < tier2Rate := by
  obtain ⟨-, -, -, h4, -, -, -, h8, -⟩ := revenue_estimate_heuristic 5 7 (by decide)
  exact ⟨h4 (by decide) (by decide), h8.2.1⟩

/-- C10: a present revenue estimate is at least 1,000,000 (hence never 0),
while the sort key maps an absent estimate to 0 — so a zero key can only
come from absence. -/
theorem revenue_estimate_floor (e : ℕ) :
    1000000 ≤ estimate_revenue_int (e : Int) ∧
    estimate_revenue_int (e : Int) ≠ 0 ∧
    estimate_revenue [("antallAnsatte", Value.int (e : Int))] =
      .ok (some (estimate_revenue_int (e : Int))) ∧
    get_revenue [("estimated_revenue", Value.null)] = 0 := by
  have h1 : 1000000 ≤ estimate_revenue_int (e : Int) := by
    rw [estimate_revenue_int_natCast]
    simp only [tier1Rate, tier2Rate, tier3Rate, tier4Rate]
    split_ifs <;> omega
  exact ⟨h1, by omega, rfl, rfl⟩

/-! ## Claim theorems: filtering -/

/-- The employee field of a record holds a value the source's documented
data model allows: an `int`, an explicit `None`, or nothing at all. -/
def employees_well_typed (company : Dict) : Bool :=
  match dictGet company "antallAnsatte" with
  | some (.str _) => false
  | some (.dict _) => false
  | _ => true

/-- The claim's filtering criterion: the employee count is present as an
`int` and at least the threshold. -/
def has_employees_at_least (company : Dict) (minEmployees : Int) : Bool :=
  match dictGet company "antallAnsatte" with
  | some (.int employees) => minEmployees ≤ employees
  | _ => false

lemma filter_large_companies_eq (minEmployees : Int) :
    ∀ companies : List Dict, (∀ c ∈ companies, employees_well_typed c = true) →
      filter_large_companies companies minEmployees =
        .ok (companies.filter (fun c => has_employees_at_least c minEmployees)) := by
  intro companies
  induction companies with
  | nil => intro _; rfl
  | cons c rest ih =>
    intro h
    have hc := h c (List.mem_cons_self c rest)
    have hrest := ih (fun x hx => h x (List.mem_cons_of_mem c hx))
    cases hv : dictGet c "antallAnsatte" with
    | none =>
        simp [filter_large_companies, hv, has_employees_at_least, hrest, List.filter_cons]
    | some v =>
        cases v with
        | null =>
            simp [filter_large_companies, hv, has_employees_at_least, hrest, List.filter_cons]
        | int employees =>
            by_cases hm : minEmployees ≤ employees
            · simp [filter_large_companies, hv, has_employees_at_least, hm, hrest,
                List.filter_cons]
            · simp [filter_large_companies, hv, has_employees_at_least, hm, hrest,
                List.filter_cons]
        | str s => simp [employees_well_typed, hv] at hc
        | dict d => simp [employees_well_typed, hv] at hc

/-- C6: on lists whose employee fields are of the documented shape, the
filter keeps exactly the records whose employee count is present and at
least the threshold, in order; a record with an absent (missing or `None`)
count is excluded whatever the threshold. -/
theorem filter_keeps_exactly_threshold (companies : List Dict) (minEmployees : Int)
    (h : ∀ c ∈ companies, employees_well_typed c = true) :
    filter_large_companies companies minEmployees =
      .ok (companies.filter (fun c => has_employees_at_least c minEmployees)) ∧
    (∀ c : Dict,
      dictGet c "antallAnsatte" = none ∨ dictGet c "antallAnsatte" = some Value.null →
        has_employees_at_least c minEmployees = false) := by
  refine ⟨filter_large_companies_eq minEmployees companies h, ?_⟩
  intro c hc
  rcases hc with hc | hc <;> simp [has_employees_at_least, hc]

/-- C6 witness: threshold 0 still drops the record with a `None` count. -/
theorem filter_keeps_exactly_threshold_witness :
    filter_large_companies
        [[("antallAnsatte", Value.null)], [("antallAnsatte", Value.int 5)], []] 0 =
      .ok ([[("antallAnsatte", Value.null)], [("antallAnsatte", Value.int 5)], []].filter
        (fun c => has_employees_at_least c 0)) :=
  (filter_keeps_exactly_threshold
    [[("antallAnsatte", Value.null)], [("antallAnsatte", Value.int 5)], []] 0 (by decide)).1

/-! ## Claim theorems: industry classification -/

/-- The claim's reading of the table lookup: truncate the code to its first
two characters and look that up, `""` mapping to `"unknown"` and unmapped
non-empty codes to `"other"`. -/
def industry_category_spec (code : String) : String :=
  if code = "" then "unknown"
  else (industry_mapping.lookup (strTake2 code)).getD "other"

lemma lookup_eq_none_of_key_length (tbl : List (String × String)) (s : String)
    (htbl : ∀ p ∈ tbl, p.1.length = 2) (hs : s.length ≠ 2) :
    tbl.lookup s = none := by
  induction tbl with
  | nil => rfl
  | cons p rest ih =>
    obtain ⟨k, v⟩ := p
    have hp : k.length = 2 := htbl (k, v) (List.mem_cons_self _ _)
    have hne : (s == k) = false := by
      rw [beq_eq_false_iff_ne]
      intro hsk
      exact hs (by rw [hsk, hp])
    simp only [List.lookup, hne]
    exact ih (fun q hq => htbl q (List.mem_cons_of_mem _ hq))

lemma industry_mapping_key_lengths : ∀ p ∈ industry_mapping, p.1.length = 2 := by decide

lemma length_ne_zero_of_ne_empty (s : String) (h : s ≠ "") : s.length ≠ 0 := by
  intro h0
  apply h
  cases s with
  | mk data =>
    cases data with
    | nil => rfl
    | cons c cs => simp at h0

lemma industry_from_code_eq_spec (s : String) :
    industry_from_code s = industry_category_spec s := by
  by_cases h0 : s = ""
  · simp [industry_from_code, industry_category_spec, h0]
  · by_cases h2 : 2 ≤ s.length
    · simp [industry_from_code, industry_category_spec, h0, h2]
    · have hne : s.length ≠ 0 := length_ne_zero_of_ne_empty s h0
      have hlen : (strTake2 s).length = min 2 s.length := by
        simp [strTake2, String.toList, List.length_asString, List.length_take,
          String.length_data]
      have hcode : industry_mapping.lookup "" = none := rfl
      have hspec : industry_mapping.lookup (strTake2 s) = none := by
        apply lookup_eq_none_of_key_length _ _ industry_mapping_key_lengths
        rw [hlen]
        omega
      simp [industry_from_code, industry_category_spec, h0, h2, hcode, hspec]

/-- C9: industry classification is the two-character-truncation lookup in
the fixed table, with the two distinct sentinels: an empty or absent code
gives `"unknown"`, a non-empty code whose truncation is unmapped gives
`"other"`. -/
theorem industry_classification_table (company : Dict) (s : String)
    (h : dictGet company "naeringskode1" = none) :
    get_industry_category company = .ok "unknown" ∧
    industry_from_code s = industry_category_spec s ∧
    industry_from_code "" = "unknown" ∧
    ("unknown" : String) ≠ "other" := by
  refine ⟨?_, industry_from_code_eq_spec s, rfl, by decide⟩
  unfold get_industry_category
  rw [h]
  rfl

/-- C9 witness: a record without industry code, and the code "62010". -/
theorem industry_classification_table_witness :
    get_industry_category [] = .ok "unknown" ∧
    industry_from_code "62010" = industry_category_spec "62010" := by
  obtain ⟨h1, h2, -, -⟩ := industry_classification_table [] "62010" rfl
  exact ⟨h1, h2⟩

/-! ## Claim theorems: enrichment frame -/

lemma dictGet_dictSet_self (d : Dict) (k : String) (v : Value) :
    dictGet (dictSet d k v) k = some v := by
  induction d with
  | nil => simp [dictSet, dictGet, List.lookup]
  | cons p rest ih =>
    obtain ⟨k', v'⟩ := p
    by_cases hk : k' = k
    · simp [dictSet, hk, dictGet, List.lookup]
    · have hne : (k == k') = false := beq_eq_false_iff_ne.mpr (fun hh => hk hh.symm)
      simp only [dictSet, hk, dictGet, List.lookup, hne, if_false]
      exact ih

lemma dictGet_dictSet_ne (d : Dict) (k k' : String) (v : Value) (h : k' ≠ k) :
    dictGet (dictSet d k v) k' = dictGet d k' := by
  induction d with
  | nil => simp [dictSet, dictGet, List.lookup, beq_eq_false_iff_ne.mpr h]
  | cons p rest ih =>
    obtain ⟨k0, v0⟩ := p
    by_cases hk : k0 = k
    · subst hk
      simp [dictSet, dictGet, List.lookup, beq_eq_false_iff_ne.mpr h]
    · cases hb : (k' == k0) with
      | false =>
          simp only [dictSet, hk, dictGet, List.lookup, hb, if_false]
          exact ih
      | true => simp [dictSet, hk, dictGet, List.lookup, hb]

/-- C8: whenever enrichment returns a record, that record agrees with the
input on every key other than the three derived ones and carries exactly
the computed derived values; the input record itself is read-only
throughout (the source copies it before writing). -/
theorem enrich_adds_only_derived_fields (company enriched : Dict)
    (h : enrich_company_data company = .ok enriched) :
    (∀ k, k ≠ "estimated_revenue" → k ≠ "size_category" → k ≠ "industry_category" →
      dictGet enriched k = dictGet company k) ∧
    (∃ rev, estimate_revenue company = .ok rev ∧
      dictGet enriched "estimated_revenue" = some (optIntToValue rev)) ∧
    (∃ sz, classify_company_size company = .ok sz ∧
      dictGet enriched "size_category" = some (Value.str sz)) ∧
    (∃ ind, get_industry_category company = .ok ind ∧
      dictGet enriched "industry_category" = some (Value.str ind)) := by
  cases hrev : estimate_revenue company with
  | error e => simp [enrich_company_data, hrev, Bind.bind, Except.bind] at h
  | ok rev =>
    cases hsz : classify_company_size company with
    | error e => simp [enrich_company_data, hrev, hsz, Bind.bind, Except.bind] at h
    | ok sz =>
      cases hind : get_industry_category company with
      | error e =>
          simp [enrich_company_data, hrev, hsz, hind, Bind.bind, Except.bind,
            Functor.map, Except.map] at h
      | ok ind =>
        have hres :
            dictSet (dictSet (dictSet company "estimated_revenue" (optIntToValue rev))
                "size_category" (Value.str sz)) "industry_category" (Value.str ind) =
              enriched := by
          simpa [enrich_company_data, hrev, hsz, hind, Bind.bind, Except.bind,
            Functor.map, Except.map, Pure.pure, Except.pure] using h
        subst hres
        refine ⟨?_, ⟨rev, rfl, ?_⟩, ⟨sz, rfl, ?_⟩, ⟨ind, rfl, ?_⟩⟩
        · intro k hk1 hk2 hk3
          rw [dictGet_dictSet_ne _ _ _ _ hk3, dictGet_dictSet_ne _ _ _ _ hk2,
            dictGet_dictSet_ne _ _ _ _ hk1]
        · rw [dictGet_dictSet_ne _ _ _ _ (by decide), dictGet_dictSet_ne _ _ _ _ (by decide),
            dictGet_dictSet_self]
        · rw [dictGet_dictSet_ne _ _ _ _ (by decide), dictGet_dictSet_self]
        · rw [dictGet_dictSet_self]

/-- A sample registry record (the spec's end-to-end scenario entity). -/
def exampleCompany : Dict :=
  [("navn", Value.str "Nordic Kraft AS"), ("organisasjonsnummer", Value.str "900000000"),
   ("antallAnsatte", Value.int 120)]

/-- `enrich_company_data exampleCompany`, written out. -/
def exampleEnriched : Dict :=
  [("navn", Value.str "Nordic Kraft AS"), ("organisasjonsnummer", Value.str "900000000"),
   ("antallAnsatte", Value.int 120),
   ("estimated_revenue", Value.int 144000000), ("size_category", Value.str "large"),
   ("industry_category", Value.str "unknown")]

/-- C8 witness: the name field of the sample record is untouched. -/
theorem enrich_adds_only_derived_fields_witness :
    dictGet exampleEnriched "navn" = dictGet exampleCompany "navn" :=
  (enrich_adds_only_derived_fields exampleCompany exampleEnriched rfl).1 "navn"
    (by decide) (by decide) (by decide)

/-! ## Claim theorems: revenue sort -/

/-- The revenue field of a record holds a value a classified entity can
carry: an `int`, an explicit `None`, or nothing at all. -/
def revenue_well_typed (company : Dict) : Bool :=
  match dictGet company "estimated_revenue" with
  | some (.str _) => false
  | some (.dict _) => false
  | _ => true

lemma sort_le_trans (a b c : Dict) :
    (fun a b : Dict => decide (get_revenue b ≤ get_revenue a)) a b →
    (fun a b : Dict => decide (get_revenue b ≤ get_revenue a)) b c →
    (fun a b : Dict => decide (get_revenue b ≤ get_revenue a)) a c := by
  simp only [decide_eq_true_eq]
  omega

lemma sort_le_total (a b : Dict) :
    ((fun a b : Dict => decide (get_revenue b ≤ get_revenue a)) a b ||
      (fun a b : Dict => decide (get_revenue b ≤ get_revenue a)) b a) := by
  simp only [Bool.or_eq_true, decide_eq_true_eq]
  omega

/-- C5: the sort returns the records ordered descending by the revenue key
(absent keyed as 0), it is a permutation of the input (so each output
record, including one with an absent estimate, is an input record
unchanged), and it is stable: for every key value, the records carrying
that key appear in their original relative order.  The hypothesis scopes
the statement to lists of classified records — the domain on which the
embedded key function agrees with Python (whose `sorted` would raise on
comparing other key types). -/
theorem sort_by_revenue_descending_stable (companies : List Dict)
    (_h : ∀ c ∈ companies, revenue_well_typed c = true) :
    List.Pairwise (fun a b => get_revenue b ≤ get_revenue a)
      (sort_by_revenue_estimate companies) ∧
    List.Perm (sort_by_revenue_estimate companies) companies ∧
    ∀ v : Int, (sort_by_revenue_estimate companies).filter (fun c => get_revenue c == v) =
      companies.filter (fun c => get_revenue c == v) := by
  refine ⟨?_, List.mergeSort_perm companies _, ?_⟩
  · exact (List.sorted_mergeSort sort_le_trans sort_le_total companies).imp
      (fun hab => by simpa using hab)
  · intro v
    have hpw : (companies.filter (fun c => get_revenue c == v)).Pairwise
        (fun a b => (fun a b : Dict => decide (get_revenue b ≤ get_revenue a)) a b) := by
      refine List.pairwise_of_forall_mem_list ?_
      intro a ha b hb
      have ha' := (List.mem_filter.mp ha).2
      have hb' := (List.mem_filter.mp hb).2
      simp only [beq_iff_eq] at ha' hb'
      simp [ha', hb']
    have hsub : List.Sublist (companies.filter (fun c => get_revenue c == v))
        (sort_by_revenue_estimate companies) :=
      List.sublist_mergeSort sort_le_trans sort_le_total hpw
        (List.filter_sublist companies)
    have hsub2 : List.Sublist (companies.filter (fun c => get_revenue c == v))
        ((sort_by_revenue_estimate companies).filter (fun c => get_revenue c == v)) := by
      have hstep := hsub.filter (fun c => get_revenue c == v)
      rwa [List.filter_filter, show
        (fun a => (get_revenue a == v) && (get_revenue a == v)) =
          (fun c => get_revenue c == v) from funext (fun a => Bool.and_self _)] at hstep
    have hperm : List.Perm ((sort_by_revenue_estimate companies).filter
        (fun c => get_revenue c == v)) (companies.filter (fun c => get_revenue c == v)) :=
      (List.mergeSort_perm companies _).filter _
    exact (hsub2.eq_of_length hperm.length_eq.symm).symm

/-- Records for the C5 witness: two tied (absent-estimate) records and one
with a present estimate. -/
def tieA : Dict := [("navn", Value.str "A")]

/-- Second tied record for the C5 witness. -/
def tieB : Dict := [("navn", Value.str "B"), ("estimated_revenue", Value.null)]

/-- Record with a present estimate for the C5 witness. -/
def richC : Dict := [("navn", Value.str "C"), ("estimated_revenue", Value.int 5)]

/-- C5 witness: a three-record instance with two ties. -/
theorem sort_by_revenue_descending_stable_witness :
    List.Perm (sort_by_revenue_estimate [tieA, tieB, richC]) [tieA, tieB, richC] ∧
    (sort_by_revenue_estimate [tieA, tieB, richC]).filter (fun c => get_revenue c == 0) =
      [tieA, tieB, richC].filter (fun c => get_revenue c == 0) := by
  obtain ⟨-, h2, h3⟩ := sort_by_revenue_descending_stable [tieA, tieB, richC] (by decide)
  exact ⟨h2, h3 0⟩

/-! ## Claim theorems: domain verification -/

/-- C1: `_verify_domain` is total (embedded as a Lean function into `Bool`)
and returns `true` exactly when name resolution of the bare host succeeds;
if resolution fails it returns `false` with no probe consulted, and the
reachability probes never change the result (two networks agreeing on
resolution yield identical results whatever their probes do). -/
theorem verify_domain_resolution_only (net net' : Network) (domain : String)
    (h : net'.resolve = net.resolve) :
    (verify_domain net domain = true ↔ ∃ addr, net.resolve domain = .ok addr) ∧
    (∀ err, net.resolve domain = .error err → verify_domain net domain = false) ∧
    verify_domain net' domain = verify_domain net domain := by
  refine ⟨?_, ?_, ?_⟩
  · unfold verify_domain
    cases hr : net.resolve domain with
    | ok addr => simp
    | error e => simp
  · intro err herr
    unfold verify_domain
    rw [herr]
  · unfold verify_domain
    rw [h]
    cases net.resolve domain with
    | ok addr => simp
    | error e => rfl

/-- A network where the host resolves but both probes fail. -/
def netProbesFail : Network :=
  ⟨fun _ => .ok "93.184.216.34", fun _ => false, fun _ => false⟩

/-- A network with the same resolution but succeeding probes. -/
def netProbesOk : Network :=
  ⟨fun _ => .ok "93.184.216.34", fun _ => true, fun _ => true⟩

/-- C1 witness: a resolving host is verified even with failing probes, and
flipping the probe outcomes does not change the verdict. -/
theorem verify_domain_resolution_only_witness :
    (verify_domain netProbesFail "statoil.no" = true ↔
      ∃ addr, netProbesFail.resolve "statoil.no" = .ok addr) ∧
    verify_domain netProbesOk "statoil.no" = verify_domain netProbesFail "statoil.no" := by
  obtain ⟨h1, -, h3⟩ :=
    verify_domain_resolution_only netProbesFail netProbesOk "statoil.no" rfl
  exact ⟨h1, h3⟩

/-! ## Claim theorems: candidate generation -/

/-- C2 counterexample: the word-pattern strategy concatenates the first two
tokens of "Statoil ASA", so the candidate union does contain
"statoilasa.no", contrary to the claim. -/
theorem statoilasa_in_candidates :
    "statoilasa.no" ∈ generate_candidates "Statoil ASA" := by decide

/-- C2 amended: the empty name yields no candidates and "Statoil ASA"
yields "statoil.no"; the slug strategy does strip the "asa" suffix (none of
its candidates is "statoilasa.no"), but the word-pattern strategy emits the
un-stripped concatenation "statoilasa.no", which is therefore in the
union. -/
theorem generate_candidates_examples :
    generate_candidates "" = [] ∧
    "statoil.no" ∈ generate_candidates "Statoil ASA" ∧
    "statoilasa.no" ∉ guess_domains_from_name "Statoil ASA" ∧
    "statoilasa.no" ∈ search_common_patterns "Statoil ASA" := by decide

end Eye
